import Mathlib

/-!
Shallow embedding of `mdlinkcheck.py`, a link checker for project-internal
Markdown links.  Text is modelled as `String` / `List Char`; the filesystem
as a partial map from POSIX-style path strings to file contents; the
program's `print` calls as lists of emitted strings.

The Python source interpolates the anchor text into `re.search` patterns.
All patterns are literal except for the interpolated anchor, so the regex
searches are modelled as literal substring searches; this is faithful
exactly when the anchor contains no regex metacharacter (`regexFree` below).
The case of an anchor containing a metacharacter is treated separately (it
makes `re.search` raise before any search happens).
-/

/-- Python's `s.split(sep)` for a one-character separator: the list of chunks
of `s` between occurrences of `sep`.  `pysplit sep [] = [[]]`, matching
`"".split("#") == [""]`. -/
def pysplit (sep : Char) : List Char → List (List Char)
  | [] => [[]]
  | c :: cs =>
    if c = sep then [] :: pysplit sep cs
    else
      match pysplit sep cs with
      | [] => [[c]]
      | g :: gs => (c :: g) :: gs

/-- Lines 111-114 of the source:

    try:
        target, anchor = target.split("#")
    except ValueError:
        anchor = ""

The two-variable unpacking succeeds only when `split` yields exactly two
chunks, i.e. when the target holds exactly one `'#'`; otherwise the
`ValueError` branch leaves the target unchanged and sets the anchor empty. -/
def splitHash (s : String) : String × String :=
  match pysplit '#' s.data with
  | [p, a] => (String.mk p, String.mk a)
  | _ => (s, "")

/-- Capture group of `\((.*?)\)`: the characters up to the first `')'`,
or `none` when no `')'` follows (the non-greedy star stops at the first
closing parenthesis). -/
def captureParen : List Char → Option (List Char)
  | [] => none
  | c :: rest =>
    if c = ')' then some []
    else (captureParen rest).map (c :: ·)

/-- Matching of `.*?\]\((.*?)\)` against the text after a `'['`: find the
first `"]("` pair (the non-greedy `.*?` with backtracking takes the earliest
pair that lets the rest of the pattern match) and capture up to the next
`')'`; on failure of the capture, backtrack and look for a later `"]("`. -/
def matchAfterBracket : List Char → Option (List Char)
  | [] => none
  | c :: rest =>
    if c = ']' then
      match rest with
      | '(' :: rest2 =>
        match captureParen rest2 with
        | some t => some t
        | none => matchAfterBracket rest
      | _ => matchAfterBracket rest
    else
      matchAfterBracket rest

/-- Line 101 of the source, `re.search(r"\[.*?\]\((.*?)\)", line)`: the
captured target of the leftmost match, scanning start positions left to
right; a match must start at a `'['`. -/
def extractTarget : List Char → Option (List Char)
  | [] => none
  | c :: rest =>
    if c = '[' then
      match matchAfterBracket rest with
      | some t => some t
      | none => extractTarget rest
    else
      extractTarget rest

/-- Tail of `re.match(r"https*://", target)` after the literal `"http"`:
zero or more `'s'` then `"://"` (the greedy star backtracks, but `':'` is
never `'s'`, so maximal munch is exact). -/
def schemeTail : List Char → Bool
  | 's' :: rest => schemeTail rest
  | ':' :: '/' :: '/' :: _ => true
  | _ => false

/-- Line 107 of the source, `re.match(r"https*://", target)`: anchored at the
start of the target. -/
def isExternal (target : List Char) : Bool :=
  match target with
  | 'h' :: 't' :: 't' :: 'p' :: rest => schemeTail rest
  | _ => false

/-- Python's `str.strip()` on ASCII whitespace. -/
def isSpaceChar (c : Char) : Bool :=
  c = ' ' || c = '\t' || c = '\n' || c = '\r' || c = '\x0b' || c = '\x0c'

/-- Line 100 of the source, `line = line.strip()`. -/
def pystrip (s : List Char) : List Char :=
  ((s.dropWhile isSpaceChar).reverse.dropWhile isSpaceChar).reverse

/-- Lines 122-128 of the source: the raspiBackupDoc prefix rewriting of the
path part of a link target.  A pure function of the flag and the target. -/
def remapTarget (raspibackupdoc : Bool) (target : String) : String :=
  if raspibackupdoc then
    if "../".data.isPrefixOf target.data then
      "../../en/src/" ++ String.mk (target.data.drop 3)
    else if "de/".data.isPrefixOf target.data then
      "../../de/src/" ++ String.mk (target.data.drop 3)
    else target
  else target

/-- Line 130 of the source, `target_path = root / target`: `pathlib` joining,
where an absolute second operand replaces the first. -/
def joinPath (root target : String) : String :=
  if "/".data.isPrefixOf target.data then target else root ++ "/" ++ target

/-- Lines 116-130 of the source: the filesystem path a link's path part
resolves to.  An empty path part is the current file itself; otherwise the
(possibly remapped) path part is joined onto the document's directory. -/
def resolveTargetPath (root file : String) (raspibackupdoc : Bool)
    (pathPart : String) : String :=
  if pathPart = "" then file
  else joinPath root (remapTarget raspibackupdoc pathPart)

/-- One step of POSIX relative-path resolution: empty and `.` components
vanish, `..` removes the last component kept so far. -/
def normStep (acc : List String) (comp : String) : List String :=
  if comp = "" || comp = "." then acc
  else if comp = ".." then acc.dropLast
  else acc ++ [comp]

/-- The component list the operating system resolves a relative path to when
`Path.exists()` consults the filesystem (no symlinks).  Two paths denote the
same file exactly when they normalize to the same component list. -/
def normalizePath (p : String) : List String :=
  ((pysplit '/' p.data).map String.mk).foldl normStep []

/-- The literal text of the pattern `f'<a name="{anchor}">'` (line 55). -/
def litQuoted (anchor : List Char) : List Char :=
  "<a name=\"".data ++ anchor ++ "\">".data

/-- The literal head of the pattern `f'<a name={anchor}[^"]'` (line 56). -/
def litUnquoted (anchor : List Char) : List Char :=
  "<a name=".data ++ anchor

/-- Substring occurrence, the effect of `re.search` with a literal pattern. -/
def isInfixB (needle hay : List Char) : Bool :=
  hay.tails.any (needle.isPrefixOf ·)

/-- Line 55: `re.search(f'<a name="{anchor}">', content)` succeeds. -/
def matchQuoted (anchor content : List Char) : Bool :=
  isInfixB (litQuoted anchor) content

/-- Whether the pattern `<a name={anchor}[^"]` matches at the start of `s`:
the literal head followed by one character other than `'"'`. -/
def startsUnquoted (anchor s : List Char) : Bool :=
  (litUnquoted anchor).isPrefixOf s &&
    match s.drop (litUnquoted anchor).length with
    | [] => false
    | c :: _ => c != '"'

/-- Line 56: the start position of the leftmost match of
`re.search(f'<a name={anchor}[^"]', content)`, `none` when it fails. -/
def unquotedPos (anchor content : List Char) : Option Nat :=
  content.tails.findIdx? (startsUnquoted anchor)

/-- Line 56 as a plain success test. -/
def matchUnquoted (anchor content : List Char) : Bool :=
  (unquotedPos anchor content).isSome

/-- The part of the heading pattern `^##* {anchor}` after its first `'#'`:
further `'#'`s, then a space, then the anchor text case-insensitively
(`re.IGNORECASE`; ASCII lowering).  The greedy `#*` backtracks, but a
shorter run of `'#'`s leaves a `'#'` where the space must match, so maximal
munch is exact. -/
def headingAfterHash (anchor : List Char) : List Char → Bool
  | '#' :: rest => headingAfterHash anchor rest
  | ' ' :: rest => (anchor.map Char.toLower).isPrefixOf (rest.map Char.toLower)
  | _ => false

/-- The heading pattern `^##* {anchor}` matching at the start of one line. -/
def headingHit (anchor line : List Char) : Bool :=
  match line with
  | '#' :: rest => headingAfterHash anchor rest
  | _ => false

/-- Lines 57-58: `re.search(f'^##* {anchor}', content, re.IGNORECASE |
re.MULTILINE)` succeeds; with `re.MULTILINE`, `^` matches at the start of
the content and after every newline, i.e. at the start of each line. -/
def matchTitle (anchor content : List Char) : Bool :=
  (pysplit '\n' content).any (headingHit anchor)

/-- Lines 63 and 74: `content[:m.start()].count("\n") + 1`, the 1-based line
of a match starting at `pos`. -/
def lineAt (content : List Char) (pos : Nat) : Nat :=
  (content.take pos).count '\n' + 1

/-- Lines 45-84 of the source, `check_anchor_in_target_file`: the list of
diagnostic lines it prints.  `content` is `target.read_text()`, passed in
because the embedding keeps the filesystem outside.  The anchor is matched
literally (see the header comment on regex interpolation). -/
def check_anchor_in_target_file (target : String) (anchor : String)
    (is_local_anchor : Bool) (file : String) (line_number : Nat)
    (content : String) : List String :=
  let mq := matchQuoted anchor.data content.data
  let mu := unquotedPos anchor.data content.data
  let mt := matchTitle anchor.data content.data
  if is_local_anchor then
    match mu with
    | some p =>
      [file ++ ":" ++ toString line_number ++ ": Anchor name '" ++ anchor ++
        "' is not quoted in line " ++ toString (lineAt content.data p) ++ "!"]
    | none =>
      if mq || mt then []
      else
        [file ++ ":" ++ toString line_number ++ ": Anchor not found: '" ++
          anchor ++ "'"]
  else
    match mu with
    | some p =>
      [file ++ ":" ++ toString line_number ++ ": Anchor name '" ++ anchor ++
        "' is not quoted in target file '" ++ target ++ ":" ++
        toString (lineAt content.data p) ++ "'!"]
    | none =>
      if mq || mt then []
      else
        [file ++ ":" ++ toString line_number ++ ": Anchor not found" ++
          " in target file '" ++ target ++ "': '" ++ anchor ++ "'"]

/-- Lines 99-140 of the source: the body of the per-line loop of
`check_markdown_file`.  Returns the diagnostic lines printed for this line
and the external-link records appended to the accumulator.  `fs` is the
filesystem: path to file content, `none` when the path does not exist. -/
def check_markdown_line (fs : String → Option String) (root file : String)
    (raspibackupdoc : Bool) (line_number : Nat) (line : String) :
    List String × List (String × Nat × String) :=
  match extractTarget (pystrip line.data) with
  | none => ([], [])
  | some t =>
    let target := String.mk t
    if isExternal t then ([], [(file, line_number, target)])
    else
      let pa := splitHash target
      let is_local_anchor := pa.1 = ""
      let target_path := resolveTargetPath root file raspibackupdoc pa.1
      match fs target_path with
      | none =>
        ([file ++ ":" ++ toString line_number ++ ": Target file not found: '"
          ++ target_path ++ "'"], [])
      | some content =>
        if pa.2 = "" then ([], [])
        else
          (check_anchor_in_target_file target_path pa.2 is_local_anchor
            file line_number content, [])

/-- The loop of lines 99-140 from line number `n` on: diagnostics and
external-link records of all lines, in order. -/
def check_markdown_lines (fs : String → Option String) (root file : String)
    (raspibackupdoc : Bool) : Nat → List String →
    List String × List (String × Nat × String)
  | _, [] => ([], [])
  | n, l :: ls =>
    let r := check_markdown_line fs root file raspibackupdoc n l
    let rs := check_markdown_lines fs root file raspibackupdoc (n + 1) ls
    (r.1 ++ rs.1, r.2 ++ rs.2)

/-- Lines 87-140 of the source, `check_markdown_file`: process a document's
lines with a 1-based line counter (`enumerate(lines, start=1)`). -/
def check_markdown_file (fs : String → Option String) (root file : String)
    (raspibackupdoc : Bool) (lines : List String) :
    List String × List (String × Nat × String) :=
  check_markdown_lines fs root file raspibackupdoc 1 lines

/-- Python's ordering on `(filename, line_number, target)` tuples:
lexicographic, strings compared by code points. -/
def linkLe (a b : String × Nat × String) : Bool :=
  decide (a.1 < b.1 ∨ (a.1 = b.1 ∧ (a.2.1 < b.2.1 ∨
    (a.2.1 = b.2.1 ∧ a.2.2 ≤ b.2.2))))

/-- Line 167 of the source: one line of the external-link summary. -/
def fmtLink (l : String × Nat × String) : String :=
  l.1 ++ ":" ++ toString l.2.1 ++ ": " ++ l.2.2

/-- Lines 161-167 of the source, `print_external_links`: the banner, then
one line per record of `sorted(links)`. -/
def print_external_links (links : List (String × Nat × String)) :
    List String :=
  "\n\n*** Info: Not checked external link(s) ***\n" ::
    (links.mergeSort linkLe).map fmtLink

/-- Lines 170-184 of the source, `main`, as the list of its print calls:
the opening banner, then the diagnostics the walk prints, then the
external-link summary when records were collected and display was requested
(`if external_links and args.show_external_links`), then a blank line.
The directory walk itself is operating-system iteration; its printed
diagnostics are taken as a parameter. -/
def main_output (show_external_links : Bool) (diagnostics : List String)
    (external_links : List (String × Nat × String)) : List String :=
  "*** Check project-internal links ***\n" :: diagnostics ++
    (if !external_links.isEmpty && show_external_links then
      print_external_links external_links
    else []) ++ [""]

/-- The literal text of the pattern `f'<a name="{anchor}">'` handed to
`re.search` on line 55, as a string. -/
def quotedAnchorPattern (anchor : String) : String :=
  "<a name=\"" ++ anchor ++ "\">"

/-- The characters `re` treats as metacharacters: interpolating an anchor
free of them into a pattern makes the anchor match literally. -/
def regexMeta (c : Char) : Bool :=
  c = '.' || c = '^' || c = '$' || c = '*' || c = '+' || c = '?' ||
  c = '\x7b' || c = '\x7d' || c = '[' || c = ']' || c = '(' || c = ')' ||
  c = '|' || c = '\\'

/-- An anchor that interpolates into `re.search` patterns as literal text. -/
def regexFree (s : List Char) : Bool :=
  s.all (fun c => !(regexMeta c))

/-- Group balance of a regex pattern, `n` groups currently open.  A pattern
whose parentheses do not balance is rejected by `re` at compile time
(`re.error`), which `check_anchor_in_target_file` does not catch. -/
def parensBalancedAux : Nat → List Char → Bool
  | n, [] => n = 0
  | n, '(' :: rest => parensBalancedAux (n + 1) rest
  | 0, ')' :: _ => false
  | n + 1, ')' :: rest => parensBalancedAux n rest
  | n, _ :: rest => parensBalancedAux n rest

/-- Whether a pattern's groups balance, the part of `re` compilation that
fails on an unbalanced parenthesis. -/
def parensBalanced (s : String) : Bool :=
  parensBalancedAux 0 s.data

/-! Helper lemmas (shared; none of them is a claim's theorem). -/

theorem pysplit_ne_nil (sep : Char) (s : List Char) : pysplit sep s ≠ [] := by
  cases s with
  | nil => simp [pysplit]
  | cons c cs =>
    simp only [pysplit]
    split
    · simp
    · split <;> simp

theorem pysplit_of_not_mem (sep : Char) (s : List Char) (h : sep ∉ s) :
    pysplit sep s = [s] := by
  induction s with
  | nil => rfl
  | cons c cs ih =>
    simp only [List.mem_cons, not_or] at h
    simp only [pysplit]
    rw [if_neg (by exact fun hc => h.1 hc.symm)]
    rw [ih h.2]

theorem pysplit_append (sep : Char) (p rest : List Char) (h : sep ∉ p) :
    pysplit sep (p ++ sep :: rest) = p :: pysplit sep rest := by
  induction p with
  | nil => simp [pysplit]
  | cons c cs ih =>
    simp only [List.mem_cons, not_or] at h
    simp only [List.cons_append, pysplit]
    rw [if_neg (by exact fun hc => h.1 hc.symm)]
    rw [List.append_eq, ih h.2]

theorem pysplit_length (sep : Char) (s : List Char) :
    (pysplit sep s).length = s.count sep + 1 := by
  induction s with
  | nil => simp [pysplit]
  | cons c cs ih =>
    simp only [pysplit]
    by_cases hc : c = sep
    · rw [if_pos hc]
      simp [List.count_cons, hc, ih]
    · rw [if_neg hc]
      have hne := pysplit_ne_nil sep cs
      cases hps : pysplit sep cs with
      | nil => exact absurd hps hne
      | cons g gs =>
        rw [hps] at ih
        simp only [List.length_cons] at ih ⊢
        rw [List.count_cons]
        simp [hc, ih]


/-- C3, counterexample: for the raw target `a#b#c`, which contains `#`, the
claim predicts path-part `a` and fragment `b#c` (split on the first `#`);
the code's two-variable unpacking of `split("#")` raises `ValueError` on the
three chunks and the `except` branch keeps the whole target with an empty
fragment. -/
theorem c3_fragment_split_counterexample :
    splitHash "a#b#c" ≠ ("a", "b#c") ∧ splitHash "a#b#c" = ("a#b#c", "") := by
  constructor
  · decide
  · decide

/-- C3, amended: the split succeeds only when the raw target holds exactly
one `#`: then path-part is the text before it and fragment the text after
it.  With no `#`, or with two or more `#`, the fragment is empty and the
path-part is the unchanged raw target.  A raw target of exactly `#anchor`
yields an empty path-part. -/
theorem c3_fragment_split_amended :
    (∀ p a : List Char, '#' ∉ p → '#' ∉ a →
      splitHash (String.mk (p ++ '#' :: a)) = (String.mk p, String.mk a)) ∧
    (∀ s : List Char, '#' ∉ s →
      splitHash (String.mk s) = (String.mk s, "")) ∧
    (∀ s : String, 2 ≤ s.data.count '#' → splitHash s = (s, "")) ∧
    splitHash "#anchor" = ("", "anchor") := by
  refine ⟨?_, ?_, ?_, by decide⟩
  · intro p a hp ha
    simp only [splitHash]
    rw [pysplit_append '#' p a hp, pysplit_of_not_mem '#' a ha]
  · intro s hs
    simp only [splitHash]
    rw [pysplit_of_not_mem '#' s hs]
  · intro s hs
    simp only [splitHash]
    have hlen := pysplit_length '#' s.data
    split
    · rename_i p a heq
      rw [heq] at hlen
      simp only [List.length_cons, List.length_nil] at hlen
      omega
    · rfl

/-- Witness for `c3_fragment_split_amended` at concrete inputs. -/
theorem c3_fragment_split_amended_witness :
    splitHash "a#b" = ("a", "b") ∧ splitHash "xy" = ("xy", "") ∧
    (2 ≤ "x##".data.count '#' ∧ splitHash "x##" = ("x##", "")) :=
  ⟨c3_fragment_split_amended.1 "a".data "b".data (by decide) (by decide),
   c3_fragment_split_amended.2.1 "xy".data (by decide),
   by decide, c3_fragment_split_amended.2.2.1 "x##" (by decide)⟩

/-- C8, counterexample: with remapping enabled, the path-part `../guide.md`
is rewritten identically for every document, but the final filesystem path
is the rewritten part joined onto the referring document's directory.  Two
documents in directories of different depth (`de/src/a.md` and
`sub/de/src/b.md`) resolve it to genuinely different files (the paths
differ even after the operating system resolves the `..` components). -/
theorem c8_remap_counterexample :
    resolveTargetPath "de/src" "de/src/a.md" true "../guide.md" ≠
      resolveTargetPath "sub/de/src" "sub/de/src/b.md" true "../guide.md" ∧
    normalizePath
        (resolveTargetPath "de/src" "de/src/a.md" true "../guide.md") =
      ["en", "src", "guide.md"] ∧
    normalizePath
        (resolveTargetPath "sub/de/src" "sub/de/src/b.md" true "../guide.md") =
      ["sub", "en", "src", "guide.md"] := by
  refine ⟨by decide, by decide, by decide⟩

/-- C8, amended: the rewriting of the raw path-part is a pure function of
the raw target and the flag — `../guide.md` becomes `../../en/src/guide.md`
for every referring document — and the resolved path depends on the
referring document only through its containing directory: two documents in
the same directory resolve it identically, and the final path is always
that directory joined with `../../en/src/guide.md`. -/
theorem c8_remap_amended :
    remapTarget true "../guide.md" = "../../en/src/guide.md" ∧
    (∀ root f g : String,
      resolveTargetPath root f true "../guide.md" =
        resolveTargetPath root g true "../guide.md") ∧
    (∀ root f : String,
      resolveTargetPath root f true "../guide.md" =
        root ++ "/../../en/src/guide.md") := by
  refine ⟨by decide, ?_, ?_⟩
  · intro root f g
    simp [resolveTargetPath]
  · intro root f
    show joinPath root (remapTarget true "../guide.md") = _
    rw [show remapTarget true "../guide.md" = "../../en/src/guide.md" from by decide]
    show root ++ "/" ++ "../../en/src/guide.md" = _
    rw [String.append_assoc,
      show ("/" ++ "../../en/src/guide.md" : String) = "/../../en/src/guide.md"
        from by decide]

set_option maxRecDepth 4000

/-- C4, counterexample: the heading pattern `^##* {anchor}` matches the
fragment text literally (case-insensitively).  For the link
`[x](#section-one)` in a document containing the heading `## Section One`,
the fragment `section-one` (hyphen) never matches the heading text
`Section One` (space), so the checker emits an `Anchor not found`
diagnostic — the claim predicts no diagnostic. -/
theorem c4_heading_case_counterexample :
    check_markdown_line
        (fun p => if p = "doc.md" then some "## Section One\n" else none)
        "." "doc.md" false 1 "[x](#section-one)" =
      (["doc.md:1: Anchor not found: 'section-one'"], []) ∧
    (["doc.md:1: Anchor not found: 'section-one'"] : List String) ≠ [] := by
  refine ⟨by decide, by decide⟩

/-- C4, amended: heading matching is case-insensitive but literal — the
fragment must occur verbatim (up to letter case) after the `#` markers and
a space.  For `[x](#section-one)`, a heading line `## SECTION-ONE` (any
letter case of `Section-One`) satisfies the fragment and no diagnostic is
emitted; a heading `## Section One` does not. -/
theorem c4_heading_case_amended :
    check_markdown_line
        (fun p => if p = "doc.md" then some "Intro\n## SECTION-ONE\ntext\n"
          else none)
        "." "doc.md" false 1 "[x](#section-one)" = ([], []) ∧
    check_markdown_line
        (fun p => if p = "doc.md" then some "Intro\n## Section-one\ntext\n"
          else none)
        "." "doc.md" false 1 "[x](#section-one)" = ([], []) := by
  refine ⟨by decide, by decide⟩

/-- C7: the code is a slip against the spec's propagation policy.  The
fragment of a link is interpolated textually into the `re.search` patterns
of `check_anchor_in_target_file`.  The line `[x](#a(b)` parses to the
fragment `a(b` (the link pattern's capture stops at the first `)`), which
is not regex-literal; interpolating it yields the pattern `<a name="a(b">`
whose group parenthesis never closes, so `re.search` raises `re.error`
inside the per-line loop and the scan aborts instead of printing a
diagnostic and continuing. -/
theorem c7_regex_interpolation_raises :
    extractTarget (pystrip "[x](#a(b)".data) = some "#a(b".data ∧
    splitHash "#a(b" = ("", "a(b") ∧
    regexFree "a(b".data = false ∧
    parensBalanced (quotedAnchorPattern "a(b") = false := by
  refine ⟨by decide, by decide, by decide, by decide⟩

theorem isInfixB_iff (needle hay : List Char) :
    isInfixB needle hay = true ↔ needle <:+: hay := by
  simp only [isInfixB, List.any_eq_true]
  constructor
  · rintro ⟨t, ht, hp⟩
    rw [List.mem_tails] at ht
    rw [List.isPrefixOf_iff_prefix] at hp
    exact List.infix_iff_prefix_suffix.mpr ⟨t, hp, ht⟩
  · intro h
    obtain ⟨t, hp, ht⟩ := List.infix_iff_prefix_suffix.mp h
    exact ⟨t, (List.mem_tails t hay).mpr ht, List.isPrefixOf_iff_prefix.mpr hp⟩

/-- C5, counterexample: with fragment `sec` and target content
`<a name=section>`, the tag's name attribute `section` merely starts with
the fragment, yet the unquoted pattern `<a name=sec[^"]` matches (the `[^"]`
consumes the `t`), so the resolver counts the anchor as found and emits the
style warning — the claim says such a tag does not count as a match. -/
theorem c5_anchor_exact_counterexample :
    matchUnquoted "sec".data "<a name=section>".data = true ∧
    check_anchor_in_target_file "other.md" "sec" false "doc.md" 3
        "<a name=section>" =
      ["doc.md:3: Anchor name 'sec' is not quoted" ++
        " in target file 'other.md:1'!"] := by
  refine ⟨by decide, by decide⟩

/-- C5, amended: the quoted form matches exactly — the pattern carries the
closing `">` delimiters, so it occurs in the content precisely when the tag
`<a name="fragment">` does, and a tag whose quoted name merely starts with
the fragment (such as `<a name="section">` for `sec`) does not count.  The
unquoted form is a prefix test: `<a name=` followed by the fragment and any
one character other than `"` matches, so a tag whose unquoted name starts
with the fragment does count. -/
theorem c5_anchor_match_amended :
    (∀ (frag rest : List Char) (c : Char), c ≠ '"' →
      matchUnquoted frag ("<a name=".data ++ frag ++ c :: rest) = true) ∧
    (∀ frag content : List Char,
      matchQuoted frag content = true ↔
        "<a name=\"".data ++ frag ++ "\">".data <:+: content) ∧
    matchQuoted "sec".data "<a name=\"section\">".data = false := by
  refine ⟨?_, ?_, by decide⟩
  · intro frag rest c hc
    rw [matchUnquoted, unquotedPos, List.findIdx?_isSome]
    apply List.any_eq_true.mpr
    refine ⟨"<a name=".data ++ frag ++ c :: rest,
      (List.mem_tails _ _).mpr (List.suffix_refl _), ?_⟩
    rw [startsUnquoted, Bool.and_eq_true]
    have hform : "<a name=".data ++ frag ++ c :: rest =
        litUnquoted frag ++ c :: rest := by
      rw [litUnquoted, List.append_assoc]
    constructor
    · rw [hform]
      exact List.isPrefixOf_iff_prefix.mpr (List.prefix_append _ _)
    · rw [hform, List.drop_left]
      exact bne_iff_ne.mpr hc
  · intro frag content
    exact isInfixB_iff _ _

/-- Witness for `c5_anchor_match_amended` at a concrete input: fragment
`sec` against the tag `<a name=section>`. -/
theorem c5_anchor_match_amended_witness :
    matchUnquoted "sec".data ("<a name=".data ++ "sec".data ++
      't' :: "ion>".data) = true :=
  c5_anchor_match_amended.1 "sec".data "ion>".data 't' (by decide)

theorem infix_data_left (needle : List Char) (s t : String)
    (h : needle <:+: s.data) : needle <:+: (s ++ t).data := by
  rw [String.data_append]
  exact h.trans (List.prefix_append s.data t.data).isInfix

theorem infix_data_right (needle : List Char) (s t : String)
    (h : needle <:+: t.data) : needle <:+: (s ++ t).data := by
  rw [String.data_append]
  exact h.trans (List.suffix_append s.data t.data).isInfix

/-- C2: the anchor resolution policy of `check_anchor_in_target_file`.  If
the unquoted-anchor pattern matches, exactly one style warning containing
`not quoted` is printed and nothing else (in particular no `not found`
line for the same link).  Otherwise a quoted-anchor match or a heading
match prints nothing.  Otherwise exactly one `Anchor not found` diagnostic
is printed, whose wording names no target file in the local-anchor case and
includes the target file's path in the cross-document case.  The hypothesis
`regexFree` confines the statement to anchors that interpolate literally
into the source's `re.search` patterns (the modelled case). -/
theorem c2_anchor_resolution_policy (tp anchor : String) (isLocal : Bool)
    (file : String) (n : Nat) (content : String)
    (_hfree : regexFree anchor.data = true) :
    (matchUnquoted anchor.data content.data = true →
      ∃ msg, check_anchor_in_target_file tp anchor isLocal file n content =
          [msg] ∧ "not quoted".data <:+: msg.data) ∧
    (matchUnquoted anchor.data content.data = false →
      (matchQuoted anchor.data content.data ||
        matchTitle anchor.data content.data) = true →
      check_anchor_in_target_file tp anchor isLocal file n content = []) ∧
    (matchUnquoted anchor.data content.data = false →
      matchQuoted anchor.data content.data = false →
      matchTitle anchor.data content.data = false →
      (isLocal = true →
        check_anchor_in_target_file tp anchor isLocal file n content =
          [file ++ ":" ++ toString n ++ ": Anchor not found: '" ++
            anchor ++ "'"]) ∧
      (isLocal = false →
        check_anchor_in_target_file tp anchor isLocal file n content =
          [file ++ ":" ++ toString n ++ ": Anchor not found" ++
            " in target file '" ++ tp ++ "': '" ++ anchor ++ "'"])) := by
  refine ⟨?_, ?_, ?_⟩
  · intro hmu
    rw [matchUnquoted] at hmu
    obtain ⟨p, hp⟩ := Option.isSome_iff_exists.mp hmu
    cases isLocal with
    | false =>
      refine ⟨file ++ ":" ++ toString n ++ ": Anchor name '" ++ anchor ++
        "' is not quoted in target file '" ++ tp ++ ":" ++
        toString (lineAt content.data p) ++ "'!", ?_, ?_⟩
      · simp [check_anchor_in_target_file, hp]
      · exact infix_data_left _ _ _ (infix_data_left _ _ _
          (infix_data_left _ _ _ (infix_data_left _ _ _
            (infix_data_right _ _ _ (by decide)))))
    | true =>
      refine ⟨file ++ ":" ++ toString n ++ ": Anchor name '" ++ anchor ++
        "' is not quoted in line " ++ toString (lineAt content.data p) ++
        "!", ?_, ?_⟩
      · simp [check_anchor_in_target_file, hp]
      · exact infix_data_left _ _ _ (infix_data_left _ _ _
          (infix_data_right _ _ _ (by decide)))
  · intro hmu hqt
    have ho : unquotedPos anchor.data content.data = none := by
      cases ho : unquotedPos anchor.data content.data with
      | none => rfl
      | some p => rw [matchUnquoted, ho] at hmu; simp at hmu
    cases isLocal with
    | false => simp [check_anchor_in_target_file, ho, hqt]
    | true => simp [check_anchor_in_target_file, ho, hqt]
  · intro hmu hq hm
    have ho : unquotedPos anchor.data content.data = none := by
      cases ho : unquotedPos anchor.data content.data with
      | none => rfl
      | some p => rw [matchUnquoted, ho] at hmu; simp at hmu
    constructor
    · intro hl
      subst hl
      simp [check_anchor_in_target_file, ho, hq, hm]
    · intro hl
      subst hl
      simp [check_anchor_in_target_file, ho, hq, hm]

/-- Witness for `c2_anchor_resolution_policy`: the spec's own example — a
cross-document link to `other.md#sec` where `other.md` holds the unquoted
tag `<a name=sec>` produces exactly the style warning. -/
theorem c2_anchor_resolution_policy_witness :
    regexFree "sec".data = true ∧
    ∃ msg, check_anchor_in_target_file "other.md" "sec" false "doc.md" 3
        "<a name=sec>\n" = [msg] ∧ "not quoted".data <:+: msg.data :=
  ⟨by decide,
   (c2_anchor_resolution_policy "other.md" "sec" false "doc.md" 3
     "<a name=sec>\n" (by decide)).1 (by decide)⟩

/-- C1: when a link's resolved target path is absent from the filesystem,
the per-line checker prints exactly one diagnostic — containing `Target
file not found` and the resolved path — performs no anchor check (the
diagnostic list holds nothing else and the external accumulator stays
empty), and the per-file loop continues with the remaining lines
unchanged after it. -/
theorem c1_missing_target_reported (fs : String → Option String)
    (root file : String) (raspibackupdoc : Bool) (n : Nat) (line : String)
    (t : List Char)
    (h1 : extractTarget (pystrip line.data) = some t)
    (h2 : isExternal t = false)
    (h3 : fs (resolveTargetPath root file raspibackupdoc
      (splitHash (String.mk t)).1) = none) :
    ∃ msg,
      check_markdown_line fs root file raspibackupdoc n line = ([msg], []) ∧
      "Target file not found".data <:+: msg.data ∧
      (resolveTargetPath root file raspibackupdoc
        (splitHash (String.mk t)).1).data <:+: msg.data ∧
      ∀ post,
        check_markdown_lines fs root file raspibackupdoc n (line :: post) =
          (msg ::
            (check_markdown_lines fs root file raspibackupdoc (n + 1) post).1,
           (check_markdown_lines fs root file raspibackupdoc (n + 1) post).2) := by
  have hline : check_markdown_line fs root file raspibackupdoc n line =
      ([file ++ ":" ++ toString n ++ ": Target file not found: '" ++
        resolveTargetPath root file raspibackupdoc (splitHash (String.mk t)).1
        ++ "'"], []) := by
    simp [check_markdown_line, h1, h2, h3]
  refine ⟨_, hline, ?_, ?_, ?_⟩
  · exact infix_data_left _ _ _ (infix_data_left _ _ _
      (infix_data_right _ _ _ (by decide)))
  · exact infix_data_left _ _ _ (infix_data_right _ _ _ (List.infix_refl _))
  · intro post
    simp [check_markdown_lines, hline]

/-- Witness for `c1_missing_target_reported`: the spec's own example, a link
`[x](missing.md)` on an empty filesystem. -/
theorem c1_missing_target_reported_witness :
    ∃ msg,
      check_markdown_line (fun _ => none) "." "doc.md" false 1
        "[x](missing.md)" = ([msg], []) ∧
      "Target file not found".data <:+: msg.data ∧
      (resolveTargetPath "." "doc.md" false
        (splitHash (String.mk "missing.md".data)).1).data <:+: msg.data ∧
      ∀ post,
        check_markdown_lines (fun _ => none) "." "doc.md" false 1
            ("[x](missing.md)" :: post) =
          (msg ::
            (check_markdown_lines (fun _ => none) "." "doc.md" false 2 post).1,
           (check_markdown_lines (fun _ => none) "." "doc.md" false 2 post).2) :=
  c1_missing_target_reported (fun _ => none) "." "doc.md" false 1
    "[x](missing.md)" "missing.md".data (by decide) (by decide) rfl

/-- C9: a self-reference (empty path part) resolves to the source document's
own path, and the anchor lookup for it runs against that same document: the
per-line checker consults the filesystem at `file` and, when a fragment is
present, calls the anchor checker with the target path `file`, the
local-anchor flag set, and the document's own content. -/
theorem c9_self_reference_invariant (fs : String → Option String)
    (root file : String) (raspibackupdoc : Bool) (n : Nat) (line : String)
    (t : List Char)
    (h1 : extractTarget (pystrip line.data) = some t)
    (h2 : isExternal t = false)
    (h3 : (splitHash (String.mk t)).1 = "") :
    resolveTargetPath root file raspibackupdoc
        (splitHash (String.mk t)).1 = file ∧
    check_markdown_line fs root file raspibackupdoc n line =
      (match fs file with
       | none =>
         ([file ++ ":" ++ toString n ++ ": Target file not found: '" ++
           file ++ "'"], [])
       | some content =>
         ((if (splitHash (String.mk t)).2 = "" then []
           else
             check_anchor_in_target_file file (splitHash (String.mk t)).2
               true file n content), [])) := by
  have hres : resolveTargetPath root file raspibackupdoc
      (splitHash (String.mk t)).1 = file := by
    simp [resolveTargetPath, h3]
  refine ⟨hres, ?_⟩
  rcases hf : fs file with _ | content <;>
    simp [check_markdown_line, h1, h2, h3, resolveTargetPath, hf]
  split <;> rfl

/-- Witness for `c9_self_reference_invariant`: the link `[x](#sec)` in
`doc.md`, whose own content holds the heading `## sec`, resolves to
`doc.md` itself and the lookup against that content succeeds silently. -/
theorem c9_self_reference_invariant_witness :
    resolveTargetPath "." "doc.md" false
        (splitHash (String.mk "#sec".data)).1 = "doc.md" ∧
    check_markdown_line
        (fun p => if p = "doc.md" then some "## sec\n" else none)
        "." "doc.md" false 1 "[x](#sec)" = ([], []) := by
  have h := c9_self_reference_invariant
    (fun p => if p = "doc.md" then some "## sec\n" else none)
    "." "doc.md" false 1 "[x](#sec)" "#sec".data
    (by decide) (by decide) (by decide)
  exact ⟨h.1, h.2.trans (by decide)⟩

theorem check_markdown_line_external (fs : String → Option String)
    (root file : String) (raspibackupdoc : Bool) (n : Nat) (line : String)
    (t : List Char)
    (h1 : extractTarget (pystrip line.data) = some t)
    (h2 : isExternal t = true) :
    check_markdown_line fs root file raspibackupdoc n line =
      ([], [(file, n, String.mk t)]) := by
  simp [check_markdown_line, h1, h2]

theorem linkLe_trans (a b c : String × Nat × String)
    (hab : linkLe a b = true) (hbc : linkLe b c = true) :
    linkLe a c = true := by
  simp only [linkLe, decide_eq_true_eq] at hab hbc ⊢
  rcases hab with h1 | ⟨e1, h1⟩
  · rcases hbc with h2 | ⟨e2, h2⟩
    · exact Or.inl (lt_trans h1 h2)
    · exact Or.inl (lt_of_lt_of_le h1 (le_of_eq e2))
  · rcases hbc with h2 | ⟨e2, h2⟩
    · exact Or.inl (lt_of_le_of_lt (le_of_eq e1) h2)
    · refine Or.inr ⟨e1.trans e2, ?_⟩
      rcases h1 with h1 | ⟨f1, h1⟩
      · rcases h2 with h2 | ⟨f2, h2⟩
        · exact Or.inl (lt_trans h1 h2)
        · exact Or.inl (lt_of_lt_of_le h1 (le_of_eq f2))
      · rcases h2 with h2 | ⟨f2, h2⟩
        · exact Or.inl (lt_of_le_of_lt (le_of_eq f1) h2)
        · exact Or.inr ⟨f1.trans f2, le_trans h1 h2⟩

theorem linkLe_total (a b : String × Nat × String) :
    (linkLe a b || linkLe b a) = true := by
  simp only [linkLe, Bool.or_eq_true, decide_eq_true_eq]
  rcases lt_trichotomy a.1 b.1 with h | h | h
  · exact Or.inl (Or.inl h)
  · rcases lt_trichotomy a.2.1 b.2.1 with h2 | h2 | h2
    · exact Or.inl (Or.inr ⟨h, Or.inl h2⟩)
    · rcases le_total a.2.2 b.2.2 with h3 | h3
      · exact Or.inl (Or.inr ⟨h, Or.inr ⟨h2, h3⟩⟩)
      · exact Or.inr (Or.inr ⟨h.symm, Or.inr ⟨h2.symm, h3⟩⟩)
    · exact Or.inr (Or.inr ⟨h.symm, Or.inl h2⟩)
  · exact Or.inr (Or.inl h)

theorem linkLe_antisymm (a b : String × Nat × String)
    (hab : linkLe a b = true) (hba : linkLe b a = true) : a = b := by
  simp only [linkLe, decide_eq_true_eq] at hab hba
  have e1 : a.1 = b.1 := by
    rcases hab with h | ⟨e, _⟩
    · rcases hba with h' | ⟨e', _⟩
      · exact absurd (h.trans h') (lt_irrefl _)
      · exact e'.symm
    · exact e
  have hab2 := (hab.resolve_left (by rw [e1]; exact lt_irrefl _)).2
  have hba2 := (hba.resolve_left (by rw [e1]; exact lt_irrefl _)).2
  have e2 : a.2.1 = b.2.1 := by
    rcases hab2 with h | ⟨e, _⟩
    · rcases hba2 with h' | ⟨e', _⟩
      · omega
      · omega
    · exact e
  have hab3 := (hab2.resolve_left (by rw [e2]; exact lt_irrefl _)).2
  have hba3 := (hba2.resolve_left (by rw [e2]; exact lt_irrefl _)).2
  have e3 : a.2.2 = b.2.2 := le_antisymm hab3 hba3
  obtain ⟨a1, a2, a3⟩ := a
  obtain ⟨b1, b2, b3⟩ := b
  simp only at e1 e2 e3
  rw [e1, e2, e3]

/-- C6: an external (http/https) link produces no per-line output — the
per-line checker prints nothing and only appends one record — and the final
summary, when displayed, lists `sorted(links)`: each collected record
appears in it exactly as often as collected (once for one occurrence), the
listing is sorted by the natural ordering of the (path, line, URL) tuple,
and it is deterministic — any two collection orders of the same records
yield the same sorted listing.  With display disabled the summary is absent
altogether. -/
theorem c6_external_links_output :
    (∀ (fs : String → Option String) (root file : String)
      (raspibackupdoc : Bool) (n : Nat) (line : String) (t : List Char),
      extractTarget (pystrip line.data) = some t → isExternal t = true →
      check_markdown_line fs root file raspibackupdoc n line =
        ([], [(file, n, String.mk t)])) ∧
    (∀ (diagnostics : List String) (links : List (String × Nat × String)),
      main_output false diagnostics links =
        "*** Check project-internal links ***\n" :: diagnostics ++ [""]) ∧
    (∀ links : List (String × Nat × String),
      print_external_links links =
        "\n\n*** Info: Not checked external link(s) ***\n" ::
          (links.mergeSort linkLe).map fmtLink) ∧
    (∀ (links : List (String × Nat × String)) (rec : String × Nat × String),
      (links.mergeSort linkLe).count rec = links.count rec) ∧
    (∀ links : List (String × Nat × String),
      List.Pairwise (fun a b => linkLe a b = true) (links.mergeSort linkLe)) ∧
    (∀ l₁ l₂ : List (String × Nat × String), l₁.Perm l₂ →
      l₁.mergeSort linkLe = l₂.mergeSort linkLe) := by
  refine ⟨check_markdown_line_external, ?_, fun _ => rfl, ?_, ?_, ?_⟩
  · intro diagnostics links
    simp [main_output]
  · intro links rec
    rw [List.count_eq_countP, List.count_eq_countP]
    exact (List.mergeSort_perm links linkLe).countP_eq _
  · intro links
    exact List.sorted_mergeSort linkLe_trans linkLe_total links
  · intro l₁ l₂ hperm
    haveI : IsAntisymm (String × Nat × String)
        (fun a b => linkLe a b = true) := ⟨linkLe_antisymm⟩
    exact List.eq_of_perm_of_sorted
      ((List.mergeSort_perm l₁ linkLe).trans
        (hperm.trans (List.mergeSort_perm l₂ linkLe).symm))
      (List.sorted_mergeSort linkLe_trans linkLe_total l₁)
      (List.sorted_mergeSort linkLe_trans linkLe_total l₂)

/-- Witness for `c6_external_links_output` at concrete inputs: the link
`[x](http://example.com)` on line 1 of `doc.md`, and a two-record
collection sorted into deterministic order. -/
theorem c6_external_links_output_witness :
    check_markdown_line (fun _ => none) "." "doc.md" false 1
        "[x](http://example.com)" =
      ([], [("doc.md", 1, "http://example.com")]) ∧
    main_output false ["d"] [("doc.md", 1, "http://example.com")] =
      ["*** Check project-internal links ***\n", "d", ""] ∧
    ([("b.md", 2, "http://u"), ("a.md", 1, "http://u")].mergeSort
        linkLe).count ("a.md", 1, "http://u") =
      [("b.md", 2, "http://u"), ("a.md", 1, "http://u")].count
        ("a.md", 1, "http://u") ∧
    [("b.md", 2, "http://u"), ("a.md", 1, "http://u")].mergeSort linkLe =
      [("a.md", 1, "http://u"), ("b.md", 2, "http://u")].mergeSort linkLe :=
  ⟨c6_external_links_output.1 (fun _ => none) "." "doc.md" false 1
      "[x](http://example.com)" "http://example.com".data
      (by decide) (by decide),
   c6_external_links_output.2.1 ["d"] [("doc.md", 1, "http://example.com")],
   c6_external_links_output.2.2.2.1 _ _,
   c6_external_links_output.2.2.2.2.2 _ _ (by decide)⟩

/-- C10: collection of an external link is unconditional — the per-line
checker takes no display flag at all and appends the record
`(document path, line number, raw URL)` for every filesystem, root and
remap-flag value — while `main` alone gates the printout: with the flag
off the summary never appears, with the flag on it appears exactly when
at least one record was collected. -/
theorem c10_external_collection_unconditional :
    (∀ (fs : String → Option String) (root file : String)
      (raspibackupdoc : Bool) (n : Nat) (line : String) (t : List Char),
      extractTarget (pystrip line.data) = some t → isExternal t = true →
      check_markdown_line fs root file raspibackupdoc n line =
        ([], [(file, n, String.mk t)])) ∧
    (∀ (diagnostics : List String) (links : List (String × Nat × String)),
      main_output false diagnostics links =
        "*** Check project-internal links ***\n" :: diagnostics ++ [""]) ∧
    (∀ diagnostics : List String,
      main_output true diagnostics [] =
        "*** Check project-internal links ***\n" :: diagnostics ++ [""]) ∧
    (∀ (diagnostics : List String) (links : List (String × Nat × String)),
      links ≠ [] →
      main_output true diagnostics links =
        "*** Check project-internal links ***\n" :: diagnostics ++
          print_external_links links ++ [""]) := by
  refine ⟨check_markdown_line_external, ?_, ?_, ?_⟩
  · intro diagnostics links
    simp [main_output]
  · intro diagnostics
    simp [main_output]
  · intro diagnostics links h
    rcases links with _ | ⟨x, xs⟩
    · exact absurd rfl h
    · simp [main_output]

/-- Witness for `c10_external_collection_unconditional`: one external link
collected with the display flag off (no summary) and on (summary shown). -/
theorem c10_external_collection_unconditional_witness :
    check_markdown_line (fun p => if p = "x" then some "y" else none)
        "r" "doc.md" true 7 "  [a](https://ex.org/p)  " =
      ([], [("doc.md", 7, "https://ex.org/p")]) ∧
    main_output true ["d"] [("doc.md", 7, "https://ex.org/p")] =
      "*** Check project-internal links ***\n" :: ["d"] ++
        print_external_links [("doc.md", 7, "https://ex.org/p")] ++ [""] :=
  ⟨c10_external_collection_unconditional.1
      (fun p => if p = "x" then some "y" else none) "r" "doc.md" true 7
      "  [a](https://ex.org/p)  " "https://ex.org/p".data
      (by decide) (by decide),
   c10_external_collection_unconditional.2.2.2 ["d"]
      [("doc.md", 7, "https://ex.org/p")] (by decide)⟩
